import Mathlib

/-!
Verification of the retrieval-and-ranking pipeline of the knowledge-base
service: chunking (`DocumentProcessor._chunk_text`), identity assignment
(`DocumentProcessor._generate_document_id`, chunk ids), the retriever
post-processing (`VectorStore.search`), the extractive answerer
(`QAService._generate_extractive_answer`, `_extract_sentences`,
`_calculate_confidence`, `answer_question`) and the coverage analyzer
(`QAService.check_completeness`, `_analyze_coverage_locally`,
`_generate_recommendations`).

Modelling conventions:
- Python strings are `List Char`; Python floats are modelled as `ℚ`
  (the claims under scrutiny concern exact formulas, not rounding).
- Fallible Python code (raising `ValueError`, `TypeError`,
  `ZeroDivisionError`) returns `Except PyError _`.
- The embedding model and the chroma vector index are external services
  (per the repository design); their outputs (query rows, retrieved
  chunks) are inputs of the modelled functions.
-/

/-- Errors raised by the modelled Python code. -/
inductive PyError where
  | typeError : PyError
  | valueError : PyError
  | zeroDivision : PyError
deriving DecidableEq

/-- Python `str.isspace` characters relevant to `str.split()`:
space, tab, newline, carriage return, vertical tab, form feed. -/
def isPySpace (c : Char) : Bool :=
  c = ' ' || c = '\t' || c = '\n' || c = '\r' || c = Char.ofNat 11 || c = Char.ofNat 12

/-- Python `str.lower()` (ASCII case fold, as used by the service on its
ASCII aspect tables and queries). -/
def pyLower (cs : List Char) : List Char :=
  cs.map Char.toLower

/-- Python `str.split()` with no argument: split on runs of whitespace,
discarding empty pieces (hence leading/trailing whitespace). -/
def pyStrSplit (cs : List Char) : List (List Char) :=
  (List.splitOnP isPySpace cs).filter (fun w => !w.isEmpty)

/-- Python `str.strip()`: drop leading and trailing whitespace. -/
def pyStrip (cs : List Char) : List Char :=
  ((cs.dropWhile isPySpace).reverse.dropWhile isPySpace).reverse

/-- Python `sep.join(parts)` for a one-character separator. -/
def joinSep (sep : List Char) : List (List Char) → List Char
  | [] => []
  | [w] => w
  | w :: v :: ws => w ++ sep ++ joinSep sep (v :: ws)

/-- Python `' '.join(parts)`. -/
def joinSpace (parts : List (List Char)) : List Char :=
  joinSep [' '] parts

/-- Does `hay` begin with `pat`? (Python `str.startswith`.) -/
def leadsWith : List Char → List Char → Bool
  | [], _ => true
  | _ :: _, [] => false
  | p :: ps, h :: hs => p = h && leadsWith ps hs

/-- Python substring test `pat in hay`. -/
def occursIn (pat : List Char) : List Char → Bool
  | [] => leadsWith pat []
  | h :: hs => leadsWith pat (h :: hs) || occursIn pat hs

/-- Equality of modelled call outcomes is decidable, so that concrete
runs of the modelled code can be checked by evaluation. -/
instance {ε α : Type} [DecidableEq ε] [DecidableEq α] : DecidableEq (Except ε α) :=
  fun x y =>
    match x, y with
    | .ok a, .ok b => decidable_of_iff (a = b) (by simp)
    | .error a, .error b => decidable_of_iff (a = b) (by simp)
    | .ok _, .error _ => isFalse (by simp)
    | .error _, .ok _ => isFalse (by simp)

/-- Fuel-indexed helper for `range(start, stop, step)` with a positive
step; the fuel is a structural-recursion device only and never runs out
when it exceeds `stop - start`. -/
def pyRangeUpAux : Nat → Nat → Nat → Nat → List Nat
  | 0, _, _, _ => []
  | fuel + 1, start, stop, step =>
      if start < stop ∧ 0 < step then
        start :: pyRangeUpAux fuel (start + step) stop step
      else
        []

/-- Python `range(start, stop, step)` for a positive step. -/
def pyRangeUp (start stop step : Nat) : List Nat :=
  pyRangeUpAux (stop - start + 1) start stop step

/-- Python `range(0, stop, step)` over an integer step: constructing the
range raises `ValueError` on a zero step; a negative step with a
non-negative stop yields the empty range. -/
def pyRange0 (stop : Nat) (step : Int) : Except PyError (List Nat) :=
  if step = 0 then .error .valueError
  else if step < 0 then .ok []
  else .ok (pyRangeUp 0 stop step.toNat)

/-- `DocumentProcessor._chunk_text` (document_processor.py:109-121):
split `text` on whitespace, then for each `i` in
`range(0, len(words), chunk_size - chunk_overlap)` append the window
`' '.join(words[i:i + chunk_size])` when it is non-empty.  Empty input
text returns an empty list before any range is built. -/
def chunk_text (chunk_size chunk_overlap : Nat) (text : List Char) :
    Except PyError (List (List Char)) :=
  if text = [] then .ok []
  else
    let words := pyStrSplit text
    match pyRange0 words.length ((chunk_size : Int) - (chunk_overlap : Int)) with
    | .error e => .error e
    | .ok idxs =>
        .ok (idxs.filterMap (fun i =>
          let chunk := joinSpace ((words.drop i).take chunk_size)
          if chunk = [] then none else some chunk))

/-- Decimal digit character, `chr(48 + k)` for `k < 10`. -/
def decChar (k : Nat) : Char :=
  Char.ofNat (48 + k % 10)

/-- Fuel-indexed decimal rendering helper for `str(n)`. -/
def decDigitsAux : Nat → Nat → List Char
  | 0, _ => []
  | fuel + 1, n =>
      if n < 10 then [decChar n]
      else decDigitsAux fuel (n / 10) ++ [decChar (n % 10)]

/-- Python `str(n)` for a natural number. -/
def pyStrOfNat (n : Nat) : List Char :=
  decDigitsAux (n + 1) n

/-- Lowercase hexadecimal digit character: `0-9` then `a-f`. -/
def hexChar (k : Nat) : Char :=
  if k % 16 < 10 then Char.ofNat (48 + k % 16) else Char.ofNat (87 + k % 16)

/-- Fixed-width big-endian hexadecimal rendering (width = fuel). -/
def hexDigitsAux : Nat → Nat → List Char
  | 0, _ => []
  | fuel + 1, n => hexDigitsAux fuel (n / 16) ++ [hexChar (n % 16)]

/-- `hashlib.md5(...).hexdigest()` output format: the 128-bit digest
value printed as exactly 32 lowercase hexadecimal characters.  The MD5
compression itself is an external cryptographic primitive; the digest
value is taken as a parameter, which suffices because the claims only
depend on the hexdigest alphabet. -/
def md5HexDigest (digest : Nat) : List Char :=
  hexDigitsAux 32 (digest % 2 ^ 128)

/-- `DocumentProcessor._generate_document_id`
(document_processor.py:123-125): the md5 hexdigest of the unique string
built from filename, content length and content head; `digest` stands
for the 128-bit md5 value of that string. -/
def generate_document_id (digest : Nat) : List Char :=
  md5HexDigest digest

/-- Chunk id `f"{document_id}_{i}"` (document_processor.py:42). -/
def chunk_id (document_id : List Char) (i : Nat) : List Char :=
  document_id ++ '_' :: pyStrOfNat i

/-- Python `chunk_id.rsplit("_", 1)[0]` (vector_store.py:155): the part
of the string before the last underscore, or the whole string when no
underscore occurs. -/
def rsplitUnderscoreHead (cs : List Char) : List Char :=
  match cs.reverse.dropWhile (fun c => c ≠ '_') with
  | [] => cs
  | _ :: rest => rest.reverse

/-- Sentence-terminal punctuation of `re.split(r'[.!?]+', text)`. -/
def isTermChar (c : Char) : Bool :=
  c = '.' || c = '!' || c = '?'

/-- Fuel-indexed helper for `re.split(r'[.!?]+', text)`: a run of
terminal punctuation is a single separator; the fragment before each
separator (and the final fragment, possibly empty) is emitted.  Each
step consumes at least one character, so fuel exceeding the text length
never runs out. -/
def splitTermAux : Nat → List Char → List Char → List (List Char)
  | 0, _, acc => [acc.reverse]
  | _ + 1, [], acc => [acc.reverse]
  | fuel + 1, c :: rest, acc =>
      if isTermChar c then
        acc.reverse :: splitTermAux fuel (rest.dropWhile isTermChar) []
      else
        splitTermAux fuel rest (c :: acc)

/-- `re.split(r'[.!?]+', text)` as used by `QAService._extract_sentences`. -/
def reSplitTerm (cs : List Char) : List (List Char) :=
  splitTermAux (cs.length + 1) cs []

/-- `QAService._extract_sentences` (qa_service.py:101-107): split on
terminal punctuation, keep `s.strip()` for each fragment `s` with
`len(s.strip()) > 20`. -/
def extract_sentences (text : List Char) : List (List Char) :=
  ((reSplitTerm text).filter (fun s => 20 < (pyStrip s).length)).map pyStrip

/-- A retrieved chunk (`SearchResult` in schemas.py), restricted to the
fields the pipeline reads. -/
structure SearchRes where
  document_id : List Char
  filename : List Char
  chunk_id : List Char
  content : List Char
  similarity_score : ℚ
deriving DecidableEq

/-- The scoring loop of `QAService._generate_extractive_answer`
(qa_service.py:72-81): `question_words` is the set of lowercased
question words; each sentence is scored
`(overlap / len(question_words)) * 0.5 + chunk_score * 0.5`.
Python raises `ZeroDivisionError` when `question_words` is empty and at
least one candidate sentence exists. -/
def scoreSentences (question_words : List (List Char)) :
    List (List Char × ℚ) → Except PyError (List (List Char × ℚ))
  | [] => .ok []
  | (sent, chunk_score) :: rest =>
      if question_words.length = 0 then .error .zeroDivision
      else
        match scoreSentences question_words rest with
        | .error e => .error e
        | .ok tail =>
            .ok ((sent,
              ((question_words.countP
                  (fun w => (pyStrSplit (pyLower sent)).contains w) : ℚ) /
                (question_words.length : ℚ)) * (1 / 2) +
              chunk_score * (1 / 2)) :: tail)

/-- `QAService._generate_extractive_answer` (qa_service.py:59-99):
collect sentences of the top-3 chunks, score them against the question,
stable-sort descending by score, keep up to 3 distinct sentences with
score above 0.3, joined by single spaces; otherwise fall back to the
first 300 characters of the top chunk. -/
def generate_extractive_answer (question : List Char) (chunks : List SearchRes) :
    Except PyError (List Char) :=
  match chunks with
  | [] => .ok ("No relevant information found.").data
  | c0 :: cs =>
      let all_sentences := ((c0 :: cs).take 3).flatMap
        (fun c => (extract_sentences c.content).map
          (fun s => (s, c.similarity_score)))
      let question_words := (pyStrSplit (pyLower question)).dedup
      match scoreSentences question_words all_sentences with
      | .error e => .error e
      | .ok scored =>
          let sorted := scored.mergeSort (fun a b => decide (b.2 ≤ a.2))
          let answer_parts := ((sorted.take 3).foldl
            (fun (st : List (List Char) × List (List Char)) sc =>
              if !(st.2.contains sc.1) && decide ((3 : ℚ) / 10 < sc.2) then
                (st.1 ++ [sc.1], st.2 ++ [sc.1])
              else st)
            ([], [])).1
          if answer_parts = [] then
            .ok (("Based on the search results:\n\n").data ++
              c0.content.take 300 ++ ("...").data)
          else
            .ok (joinSpace answer_parts)

/-- `QAService._calculate_confidence` (qa_service.py:109-119):
`min(avg_similarity * 0.4 + top_score * 0.6, 1.0)`, and `0.0` on an
empty chunk list. -/
def calculate_confidence : List SearchRes → ℚ
  | [] => 0
  | c :: cs =>
      let chunks := c :: cs
      let avg_similarity :=
        (chunks.map (fun x => x.similarity_score)).sum / (chunks.length : ℚ)
      min (avg_similarity * (4 / 10) + c.similarity_score * (6 / 10)) 1

/-- The answer payload of `QAService.answer_question` (schemas.py
`AnswerResponse`, without the wall-clock `processing_time` field). -/
structure AnswerResp where
  question : List Char
  answer : List Char
  sources : List SearchRes
  confidence : ℚ
deriving DecidableEq

/-- `QAService.answer_question` (qa_service.py:18-49) as a function of
the retrieval outcome `relevant_chunks` (the vector-store query is an
external service call): the empty retrieval returns the canned answer
with confidence `0.0` and no sources; otherwise the extractive answer
and confidence are computed. -/
def answer_question (question : List Char) (relevant_chunks : List SearchRes) :
    Except PyError AnswerResp :=
  if relevant_chunks = [] then
    .ok { question := question
          answer := ("No relevant information found in the knowledge base.").data
          sources := []
          confidence := 0 }
  else
    match generate_extractive_answer question relevant_chunks with
    | .error e => .error e
    | .ok answer =>
        .ok { question := question
              answer := answer
              sources := relevant_chunks
              confidence := calculate_confidence relevant_chunks }

/-- One row of the chroma `collection.query` response consumed by
`VectorStore.search` (vector_store.py:86-90): chunk id, stored document
text, the metadata fields read, and the cosine distance. -/
structure QueryHit where
  hit_id : List Char
  document : List Char
  md_document_id : List Char
  md_filename : List Char
  distance : ℚ
deriving DecidableEq

/-- The post-processing loop of `VectorStore.search`
(vector_store.py:86-103): for each returned row compute
`similarity_score = 1 - distance` and keep the row iff
`similarity_score >= similarity_threshold`, preserving store order. -/
def search_postprocess (hits : List QueryHit) (similarity_threshold : ℚ) :
    List SearchRes :=
  (hits.filter (fun h => decide (similarity_threshold ≤ 1 - h.distance))).map
    (fun h =>
      { document_id := h.md_document_id
        filename := h.md_filename
        chunk_id := h.hit_id
        content := h.document
        similarity_score := 1 - h.distance })

/-- The named parameters of `VectorStore.search` (vector_store.py:72-77):
`query`, `max_results`, `similarity_threshold` (plus `self`).  There is
no `document_ids` parameter and no `**kwargs`. -/
def vectorStoreSearchParams : List (List Char) :=
  [("query").data, ("max_results").data, ("similarity_threshold").data]

/-- Python keyword-argument binding for a signature without `**kwargs`:
a call raises `TypeError` iff some keyword is not a declared parameter. -/
def pyBindKwargs (params kwargs : List (List Char)) : Except PyError Unit :=
  if kwargs.all (fun k => params.contains k) then .ok () else .error .typeError

/-- Keywords passed to `vector_store.search` by the `/search` route
(routes.py:92-97). -/
def searchRouteKwargs : List (List Char) :=
  [("query").data, ("max_results").data, ("document_ids").data,
   ("similarity_threshold").data]

/-- Keywords passed to `vector_store.search` by
`QAService.check_completeness` (qa_service.py:129-133). -/
def checkCompletenessSearchKwargs : List (List Char) :=
  [("query").data, ("max_results").data, ("document_ids").data]

/-- The hardcoded topic-aspect table of
`QAService._analyze_coverage_locally` (qa_service.py:177-185). -/
def topic_aspects : List (List Char × List (List Char)) :=
  [(("machine learning").data,
    [("supervised").data, ("unsupervised").data, ("reinforcement").data,
     ("neural networks").data, ("training").data, ("models").data]),
   (("deep learning").data,
    [("neural networks").data, ("backpropagation").data, ("layers").data,
     ("activation").data, ("convolution").data, ("recurrent").data]),
   (("data science").data,
    [("analysis").data, ("visualization").data, ("statistics").data,
     ("cleaning").data, ("modeling").data, ("insights").data]),
   (("artificial intelligence").data,
    [("machine learning").data, ("neural networks").data, ("nlp").data,
     ("computer vision").data, ("reasoning").data]),
   (("supervised learning").data,
    [("classification").data, ("regression").data, ("labeled data").data,
     ("training").data, ("prediction").data]),
   (("unsupervised learning").data,
    [("clustering").data, ("dimensionality").data, ("patterns").data,
     ("unlabeled").data, ("grouping").data]),
   (("reinforcement learning").data,
    [("agent").data, ("environment").data, ("reward").data,
     ("policy").data, ("action").data, ("state").data])]

/-- The table lookup of `_analyze_coverage_locally` (qa_service.py:192-195):
the first key matching the lowered topic as a substring in either
direction wins (the loop breaks after the first match). -/
def lookupAspects (topic_lower : List Char) :
    List (List Char × List (List Char)) → List (List Char)
  | [] => []
  | (key, values) :: rest =>
      if occursIn key topic_lower || occursIn topic_lower key then values
      else lookupAspects topic_lower rest

/-- The classification loop of `_analyze_coverage_locally`
(qa_service.py:203-216): an aspect is covered when it occurs verbatim in
the concatenated lowered content, partially covered when one of its
words occurs among the content words, otherwise missing. -/
def classifyAspects (content : List Char) (aspects : List (List Char)) :
    List (List Char) × List (List Char) :=
  aspects.foldl
    (fun (st : List (List Char) × List (List Char)) aspect =>
      if occursIn (pyLower aspect) content then
        (st.1 ++ [("Coverage of ").data ++ aspect], st.2)
      else if (pyStrSplit (pyLower aspect)).any
          (fun w => (pyStrSplit content).contains w) then
        (st.1 ++ [("Partial coverage of ").data ++ aspect], st.2)
      else
        (st.1, st.2 ++ [("Missing information about ").data ++ aspect]))
    ([], [])

/-- `QAService._analyze_coverage_locally` (qa_service.py:168-224):
resolve aspects for the topic (table lookup, else the topic's own words
plus a "{word} examples" variant each), classify them against the
space-joined lowered chunk contents, prepend the summary markers, and
cap both lists at 5 entries. -/
def analyze_coverage_locally (topic : List Char) (chunks : List SearchRes) :
    List (List Char) × List (List Char) :=
  let content := joinSpace (chunks.map (fun c => pyLower c.content))
  let topic_lower := pyLower topic
  let aspects0 := lookupAspects topic_lower topic_aspects
  let aspects :=
    if aspects0 = [] then
      pyStrSplit topic_lower ++
        (pyStrSplit topic_lower).map (fun w => w ++ (" examples").data)
    else aspects0
  let cm := classifyAspects content aspects
  let cm2 :=
    if cm.2.length < cm.1.length then
      ((("Good overall coverage of ").data ++ topic) :: cm.1, cm.2)
    else if cm.1 = [] then
      (cm.1, (("No clear coverage of ").data ++ topic) :: cm.2)
    else cm
  (cm2.1.take 5, cm2.2.take 5)

/-- Per-topic payload of the completeness check (schemas.py
`CompletenessResult`). -/
structure CompletenessResult where
  topic : List Char
  coverage_score : ℚ
  covered_aspects : List (List Char)
  missing_aspects : List (List Char)
  relevant_chunks : List SearchRes
deriving DecidableEq

/-- Response payload of the completeness check (schemas.py
`CompletenessResponse`). -/
structure CompletenessResponse where
  overall_completeness : ℚ
  results : List CompletenessResult
  recommendations : List (List Char)
deriving DecidableEq

/-- `QAService._generate_recommendations` (qa_service.py:226-250). -/
def generate_recommendations (results : List CompletenessResult) :
    List (List Char) :=
  let low_coverage_topics :=
    (results.filter (fun r => decide (r.coverage_score < 1 / 2))).map
      (fun r => r.topic)
  let recs1 :=
    if low_coverage_topics = [] then []
    else [("Consider adding more content about: ").data ++
      joinSep ((", ").data) low_coverage_topics]
  let missing_aspects_count := (results.map (fun r => r.missing_aspects.length)).sum
  let recs2 :=
    if 5 < missing_aspects_count then
      [("The knowledge base has significant gaps. Consider comprehensive content review.").data]
    else []
  let high_coverage_count :=
    results.countP (fun r => decide ((8 : ℚ) / 10 < r.coverage_score))
  let recs3 :=
    if high_coverage_count = results.length then
      [("Knowledge base has excellent coverage of the specified topics.").data]
    else []
  recs1 ++ recs2 ++ recs3

/-- The loop body of `QAService.check_completeness`
(qa_service.py:128-153) for one topic.  The iteration begins with
`await self.vector_store.search(query=topic, max_results=10,
document_ids=document_ids)`: the keyword binding of that call against
the declared parameters of `VectorStore.search` (vector_store.py:72-77)
is modelled first, exactly as Python performs it, and it raises
`TypeError` because `search` has no `document_ids` parameter.
`retrieve` stands for the store response the call would return if the
binding succeeded; on that success path the source's branches run
unchanged: no retrieved chunks gives coverage 0.0, no covered aspects
and the single missing aspect "No information about {topic}", otherwise
the local coverage analysis and the ratio
`len(covered) / (len(covered) + len(missing))` (or 0.0 when both lists
are empty). -/
def completeness_topic_result (retrieve : List Char → List SearchRes)
    (topic : List Char) : Except PyError CompletenessResult :=
  match pyBindKwargs vectorStoreSearchParams checkCompletenessSearchKwargs with
  | .error e => .error e
  | .ok _ =>
      let relevant_chunks := retrieve topic
      if relevant_chunks = [] then
        .ok { topic := topic
              coverage_score := 0
              covered_aspects := []
              missing_aspects := [("No information about ").data ++ topic]
              relevant_chunks := [] }
      else
        let cm := analyze_coverage_locally topic relevant_chunks
        .ok { topic := topic
              coverage_score :=
                if cm.1 = [] ∧ cm.2 = [] then 0
                else (cm.1.length : ℚ) / ((cm.1.length : ℚ) + (cm.2.length : ℚ))
              covered_aspects := cm.1
              missing_aspects := cm.2
              relevant_chunks := relevant_chunks.take 3 }

/-- The `for topic in topics` loop of `check_completeness`: per-topic
results are accumulated in order, and an exception raised by an
iteration aborts the loop and propagates. -/
def completeness_results (retrieve : List Char → List SearchRes) :
    List (List Char) → Except PyError (List CompletenessResult)
  | [] => .ok []
  | t :: ts =>
      match completeness_topic_result retrieve t with
      | .error e => .error e
      | .ok r =>
          match completeness_results retrieve ts with
          | .error e => .error e
          | .ok rs => .ok (r :: rs)

/-- `QAService.check_completeness` (qa_service.py:121-166): run the
per-topic loop (whose store call raises `TypeError` on the
`document_ids` keyword), then aggregate: `overall_completeness` is the
sum of the coverage scores divided by the number of results (0.0 with
no topics) and the recommendations are synthesized from the results. -/
def check_completeness (retrieve : List Char → List SearchRes)
    (topics : List (List Char)) : Except PyError CompletenessResponse :=
  match completeness_results retrieve topics with
  | .error e => .error e
  | .ok results =>
      .ok { overall_completeness :=
              if results = [] then 0
              else (results.map (fun r => r.coverage_score)).sum /
                (results.length : ℚ)
            results := results
            recommendations := generate_recommendations results }

/-- With fuel exceeding `stop - start` and a positive step, the range
has exactly `ceil((stop - start) / step)` elements. -/
lemma pyRangeUpAux_length (step : Nat) (hstep : 0 < step) :
    ∀ (fuel start stop : Nat), stop - start < fuel →
      (pyRangeUpAux fuel start stop step).length = (stop - start + step - 1) / step := by
  intro fuel
  induction fuel with
  | zero => intro start stop h; omega
  | succ n ih =>
    intro start stop h
    simp only [pyRangeUpAux]
    split
    · next hc =>
        simp only [List.length_cons]
        rw [ih (start + step) stop (by omega)]
        have h1 : stop - start + step - 1 = (stop - start - 1) + step := by omega
        by_cases hge : step ≤ stop - start
        · have h3 : stop - (start + step) + step - 1 = stop - start - 1 := by omega
          rw [h3, h1, Nat.add_div_right _ hstep]
        · have h3 : stop - (start + step) = 0 := by omega
          rw [h3, h1, Nat.add_div_right _ hstep]
          rw [Nat.div_eq_of_lt (by omega), Nat.div_eq_of_lt (by omega)]
    · next hc =>
        have h0 : stop - start = 0 := by
          rcases Nat.lt_or_ge start stop with hlt | hle
          · exact absurd ⟨hlt, hstep⟩ hc
          · omega
        rw [h0]
        simp only [List.length_nil, Nat.zero_add]
        rw [Nat.div_eq_of_lt (by omega)]

/-- Every element of the modelled range is below `stop`. -/
lemma pyRangeUpAux_mem_lt :
    ∀ (fuel start stop step i : Nat), i ∈ pyRangeUpAux fuel start stop step → i < stop := by
  intro fuel
  induction fuel with
  | zero => intro start stop step i h; simp [pyRangeUpAux] at h
  | succ n ih =>
    intro start stop step i h
    simp only [pyRangeUpAux] at h
    split at h
    · next hc =>
        rcases List.mem_cons.mp h with rfl | hmem
        · exact hc.1
        · exact ih _ _ _ _ hmem
    · simp at h

/-- Length of `range(0, stop, step)` for a positive step. -/
lemma pyRangeUp_length (stop step : Nat) (hstep : 0 < step) :
    (pyRangeUp 0 stop step).length = (stop + step - 1) / step := by
  unfold pyRangeUp
  rw [pyRangeUpAux_length step hstep _ 0 stop (by omega), Nat.sub_zero]

/-- Membership bound for `range(0, stop, step)`. -/
lemma pyRangeUp_mem_lt (start stop step i : Nat)
    (h : i ∈ pyRangeUp start stop step) : i < stop :=
  pyRangeUpAux_mem_lt _ _ _ _ _ h

/-- Words produced by `str.split()` are never empty. -/
lemma pyStrSplit_mem_ne_nil (cs w : List Char) (h : w ∈ pyStrSplit cs) : w ≠ [] := by
  have h2 := (List.mem_filter.mp h).2
  intro hnil
  rw [hnil] at h2
  simp at h2

/-- Joining a list headed by a non-empty word gives a non-empty string. -/
lemma joinSpace_cons_ne_nil (w : List Char) (ws : List (List Char)) (h : w ≠ []) :
    joinSpace (w :: ws) ≠ [] := by
  cases ws with
  | nil => simpa [joinSpace, joinSep] using h
  | cons v vs => simp [joinSpace, joinSep, h]

/-- The chunk loop keeps every window when all windows are non-empty. -/
lemma filterMap_if_all_ne (g : Nat → List Char) :
    ∀ (l : List Nat), (∀ i ∈ l, g i ≠ []) →
      (l.filterMap fun i => if g i = [] then none else some (g i)) = l.map g := by
  intro l
  induction l with
  | nil => intro _; rfl
  | cons a l ih =>
    intro h
    rw [List.filterMap_cons, if_neg (h a (List.mem_cons_self a l)), List.map_cons]
    rw [ih (fun i hi => h i (List.mem_cons_of_mem a hi))]

/-- Dropping-while over a block whose members all satisfy the predicate
skips the whole block. -/
lemma dropWhile_append_of_all (p : Char → Bool) (l1 l2 : List Char)
    (h : ∀ c ∈ l1, p c = true) :
    List.dropWhile p (l1 ++ l2) = List.dropWhile p l2 := by
  rw [List.dropWhile_append, List.dropWhile_eq_nil_iff.mpr h]
  simp

/-- A hexadecimal digit character is never an underscore. -/
lemma hexChar_ne_underscore (k : Nat) : hexChar k ≠ '_' := by
  unfold hexChar
  have hk : k % 16 < 16 := Nat.mod_lt _ (by norm_num)
  generalize hj : k % 16 = j at *
  interval_cases j <;> decide

/-- The hexdigest rendering never contains an underscore. -/
lemma hexDigitsAux_no_underscore : ∀ (fuel n : Nat), '_' ∉ hexDigitsAux fuel n := by
  intro fuel
  induction fuel with
  | zero => intro n; simp [hexDigitsAux]
  | succ m ih =>
    intro n
    simp only [hexDigitsAux, List.mem_append, List.mem_singleton]
    rintro (h | h)
    · exact ih (n / 16) h
    · exact hexChar_ne_underscore (n % 16) h.symm

/-- A decimal digit character is never an underscore. -/
lemma decChar_ne_underscore (k : Nat) : decChar k ≠ '_' := by
  unfold decChar
  have hk : k % 10 < 10 := Nat.mod_lt _ (by norm_num)
  generalize hj : k % 10 = j at *
  interval_cases j <;> decide

/-- The decimal rendering of a chunk index never contains an underscore. -/
lemma decDigitsAux_no_underscore : ∀ (fuel n : Nat), '_' ∉ decDigitsAux fuel n := by
  intro fuel
  induction fuel with
  | zero => intro n; simp [decDigitsAux]
  | succ m ih =>
    intro n
    simp only [decDigitsAux]
    split
    · simp only [List.mem_singleton]
      intro h
      exact decChar_ne_underscore n h.symm
    · simp only [List.mem_append, List.mem_singleton]
      rintro (h | h)
      · exact ih (n / 10) h
      · exact decChar_ne_underscore (n % 10) h.symm

/-- `rsplit("_", 1)[0]` recovers the left part when everything after the
separator is underscore-free. -/
lemma rsplitUnderscoreHead_append (d s : List Char) (hs : '_' ∉ s) :
    rsplitUnderscoreHead (d ++ '_' :: s) = d := by
  unfold rsplitUnderscoreHead
  have h1 : (d ++ '_' :: s).reverse = s.reverse ++ '_' :: d.reverse := by
    simp
  rw [h1, dropWhile_append_of_all _ _ _ ?hall]
  case hall =>
    intro c hc
    have hcs : c ∈ s := List.mem_reverse.mp hc
    simp only [decide_eq_true_eq]
    intro hceq
    exact hs (hceq ▸ hcs)
  rw [List.dropWhile_cons]
  simp

/-- With a non-empty question word set the scoring loop never fails. -/
lemma scoreSentences_ok (qw : List (List Char)) (hqw : qw ≠ []) :
    ∀ (l : List (List Char × ℚ)), ∃ r, scoreSentences qw l = .ok r := by
  intro l
  induction l with
  | nil => exact ⟨[], rfl⟩
  | cons a l ih =>
    obtain ⟨sent, cscore⟩ := a
    obtain ⟨r, hr⟩ := ih
    have hlen : ¬ qw.length = 0 := by simpa using hqw
    simp only [scoreSentences, if_neg hlen, hr]
    exact ⟨_, rfl⟩

/-- C1.  The spec says `search` accepts an optional `document_ids`
restriction and that the search route and the coverage analyzer invoke
it with that argument.  In the code `VectorStore.search` declares only
`query`, `max_results` and `similarity_threshold`, so both call sites
bind an unknown keyword `document_ids` and raise `TypeError` — the
repository's own tests assert these endpoints succeed, so the code
contradicts its tests. -/
theorem search_documentIds_keyword_typeError :
    pyBindKwargs vectorStoreSearchParams searchRouteKwargs =
      .error .typeError ∧
    pyBindKwargs vectorStoreSearchParams checkCompletenessSearchKwargs =
      .error .typeError := by
  decide

/-- C3 counterexample.  With `overlap = 3 > size = 2` and a non-empty
text, the chunker does not fail at all: the negative range step yields
an empty range, so the call returns an empty chunk list, refuting the
claim that every `overlap ≥ size` configuration fails with a
`ConfigurationError`. -/
theorem chunk_text_overlap_gt_size_no_failure :
    chunk_text 2 3 (("a b c d").data) = .ok [] := by
  decide

/-- C3 amended.  On a non-empty text, `overlap = size` makes the range
step zero and the chunker raises `ValueError` (not a
`ConfigurationError`, which does not exist in the code), while
`overlap > size` silently returns an empty chunk list with no error. -/
theorem chunk_text_overlap_ge_size (S O : Nat) (text : List Char)
    (htext : text ≠ []) :
    (O = S → chunk_text S O text = .error .valueError) ∧
    (S < O → chunk_text S O text = .ok []) := by
  constructor
  · intro hOS
    simp only [chunk_text, if_neg htext, pyRange0]
    rw [if_pos (by omega)]
  · intro hSO
    simp only [chunk_text, if_neg htext, pyRange0]
    rw [if_neg (by omega), if_pos (by omega)]
    rfl

/-- C3 witness: both amended behaviors at concrete inputs. -/
theorem chunk_text_overlap_ge_size_witness :
    chunk_text 3 3 (("a b").data) = .error .valueError ∧
    chunk_text 2 3 (("a b").data) = .ok [] :=
  ⟨(chunk_text_overlap_ge_size 3 3 (("a b").data) (by decide)).1 rfl,
   (chunk_text_overlap_ge_size 2 3 (("a b").data) (by decide)).2 (by omega)⟩

/-- C7.  With an empty retrieval, `answer_question` returns the fixed
"no information found" message, an empty source list and confidence
exactly 0. -/
theorem answer_question_empty_retrieval (question : List Char) :
    answer_question question [] =
      .ok { question := question
            answer := ("No relevant information found in the knowledge base.").data
            sources := []
            confidence := 0 } := by
  rfl

/-- C9 counterexample.  A fragment whose trimmed length is exactly 20
characters is discarded by `_extract_sentences` (the code keeps only
fragments strictly longer than 20), refuting the claim that
20-character fragments are kept. -/
theorem extract_sentences_twenty_chars_dropped :
    (pyStrip (("abcdefghijklmnopqrst").data)).length = 20 ∧
    extract_sentences (("abcdefghijklmnopqrst").data) = [] := by
  decide

/-- C9 amended.  The sentence segmentation splits on the terminal
punctuation characters `. ! ?` and keeps a fragment's trimmed text iff
the trimmed length is strictly greater than 20 characters. -/
theorem extract_sentences_kept_iff (text frag : List Char)
    (h : frag ∈ reSplitTerm text) :
    pyStrip frag ∈ extract_sentences text ↔ 20 < (pyStrip frag).length := by
  constructor
  · intro hm
    simp only [extract_sentences, List.mem_map, List.mem_filter] at hm
    obtain ⟨f2, ⟨_, hlen⟩, heq⟩ := hm
    rw [← heq]
    simpa using hlen
  · intro hlen
    simp only [extract_sentences, List.mem_map]
    exact ⟨frag, List.mem_filter.mpr ⟨h, by simpa using hlen⟩, rfl⟩

/-- C9 witness: a 41-character fragment of a punctuation-free text is
kept. -/
theorem extract_sentences_kept_iff_witness :
    (pyStrip (("this sentence has more than twenty chars").data) ∈
        extract_sentences (("this sentence has more than twenty chars").data) ↔
      20 < (pyStrip (("this sentence has more than twenty chars").data)).length) :=
  extract_sentences_kept_iff (("this sentence has more than twenty chars").data)
    (("this sentence has more than twenty chars").data) (by decide)

/-- C10.  A generated document id (an md5 hexdigest) contains no
underscore, and the chunk id `{document_id}_{index}` is parsed back to
its owning document id by splitting at the last underscore, for every
digest value and chunk index. -/
theorem chunk_id_parses_back_to_document_id (digest i : Nat) :
    rsplitUnderscoreHead (chunk_id (generate_document_id digest) i) =
      generate_document_id digest ∧
    '_' ∉ generate_document_id digest := by
  constructor
  · unfold chunk_id pyStrOfNat
    exact rsplitUnderscoreHead_append _ _ (decDigitsAux_no_underscore _ _)
  · unfold generate_document_id md5HexDigest
    exact hexDigitsAux_no_underscore _ _

/-- C2 counterexample.  For 10 words with `size = 5, overlap = 2` the
code produces 4 chunks (the range `0,3,6,9` keeps trailing windows that
start past `N - size`), while the spec formula
`ceil(max(0, N - O) / (S - O))` gives 3. -/
theorem chunk_text_count_spec_formula_fails :
    (chunk_text 5 2 (("a b c d e f g h i j").data)).map List.length ≠
      .ok ((max 0 (10 - 2) + (5 - 2) - 1) / (5 - 2)) ∧
    (chunk_text 5 2 (("a b c d e f g h i j").data)).map List.length = .ok 4 := by
  decide

/-- C2 amended.  For every text and `overlap < size`, the chunker
returns `ceil(N / (S - O))` chunks, where `N` is the number of
whitespace-separated words of the text (hence 0 chunks for empty or
all-whitespace text). -/
theorem chunk_text_count (S O : Nat) (text : List Char) (hO : O < S) :
    (chunk_text S O text).map List.length =
      .ok (((pyStrSplit text).length + (S - O) - 1) / (S - O)) := by
  by_cases htext : text = []
  · subst htext
    have h1 : pyStrSplit ([] : List Char) = [] := rfl
    have h2 : chunk_text S O [] = .ok [] := rfl
    rw [h1, h2]
    have h3 : (0 + (S - O) - 1) / (S - O) = 0 := Nat.div_eq_of_lt (by omega)
    simp only [List.length_nil, h3, Except.map]
  · have hstep0 : ¬ ((S : Int) - (O : Int) = 0) := by omega
    have hstepneg : ¬ ((S : Int) - (O : Int) < 0) := by omega
    have htonat : ((S : Int) - (O : Int)).toNat = S - O := by omega
    simp only [chunk_text, if_neg htext, pyRange0, if_neg hstep0, if_neg hstepneg,
      htonat]
    have hall : ∀ i ∈ pyRangeUp 0 (pyStrSplit text).length (S - O),
        (fun i => joinSpace (((pyStrSplit text).drop i).take S)) i ≠ [] := by
      intro i hi
      have hiN : i < (pyStrSplit text).length :=
        pyRangeUp_mem_lt 0 _ (S - O) i hi
      have hdrop : (pyStrSplit text).drop i ≠ [] := by
        rw [Ne, List.drop_eq_nil_iff]
        omega
      rcases hd : (pyStrSplit text).drop i with _ | ⟨w, rest⟩
      · exact absurd hd hdrop
      · have hwmem : w ∈ pyStrSplit text :=
          List.mem_of_mem_drop (by rw [hd]; exact List.mem_cons_self w rest)
        have hwne : w ≠ [] := pyStrSplit_mem_ne_nil text w hwmem
        obtain ⟨S2, rfl⟩ : ∃ S2, S = S2 + 1 := ⟨S - 1, by omega⟩
        show joinSpace (((pyStrSplit text).drop i).take (S2 + 1)) ≠ []
        rw [hd, List.take_succ_cons]
        exact joinSpace_cons_ne_nil w _ hwne
    rw [filterMap_if_all_ne (fun i => joinSpace (((pyStrSplit text).drop i).take S))
      (pyRangeUp 0 (pyStrSplit text).length (S - O)) hall]
    simp only [Except.map, List.length_map]
    rw [pyRangeUp_length (pyStrSplit text).length (S - O) (by omega)]

/-- C2 witness: 5 words with `size = 4, overlap = 1` give
`ceil(5 / 3) = 2` chunks. -/
theorem chunk_text_count_witness :
    (chunk_text 4 1 (("one two three four five").data)).map List.length =
      .ok (((pyStrSplit (("one two three four five").data)).length + (4 - 1) - 1) /
        (4 - 1)) :=
  chunk_text_count 4 1 (("one two three four five").data) (by decide)

/-- C4 counterexample.  With the empty question (zero
whitespace-separated words) and one retrieved chunk holding a sentence
longer than 20 characters, the sentence scoring divides the word overlap
by `len(question_words) = 0` and raises `ZeroDivisionError`, refuting
the claim that the scoring is defined for every question. -/
theorem extractive_answer_empty_question_zeroDivision :
    generate_extractive_answer []
      [{ document_id := ("d").data, filename := ("f").data,
         chunk_id := ("d_0").data,
         content := ("Supervised learning uses labeled training data.").data,
         similarity_score := 1 / 2 }] = .error .zeroDivision := by
  decide

/-- C4 amended.  For every question whose lowercased text has at least
one whitespace-separated word, the answer generation (including the
per-sentence scoring) never raises, for every retrieved chunk list. -/
theorem extractive_answer_defined_of_question_nonempty (question : List Char)
    (chunks : List SearchRes) (h : pyStrSplit (pyLower question) ≠ []) :
    (generate_extractive_answer question chunks).isOk = true := by
  cases chunks with
  | nil => rfl
  | cons c0 cs =>
    have hqw : (pyStrSplit (pyLower question)).dedup ≠ [] := by
      simpa [List.dedup_eq_nil] using h
    obtain ⟨r, hr⟩ := scoreSentences_ok _ hqw (((c0 :: cs).take 3).flatMap
      (fun c => (extract_sentences c.content).map (fun s => (s, c.similarity_score))))
    simp only [generate_extractive_answer, hr]
    split <;> rfl

/-- C4 witness: a one-word question with one retrieved chunk. -/
theorem extractive_answer_defined_witness :
    (generate_extractive_answer (("what").data)
      [{ document_id := ("d").data, filename := ("f").data,
         chunk_id := ("d_0").data,
         content := ("Supervised learning uses labeled training data.").data,
         similarity_score := 9 / 10 }]).isOk = true :=
  extractive_answer_defined_of_question_nonempty (("what").data) _ (by decide)

/-- C5.  For every non-empty retrieval, the confidence equals
`min(0.4 * mean(similarities) + 0.6 * top1, 1)` where `top1` is the
first (best) chunk's similarity, and — holding every other similarity
fixed — the confidence is monotonically non-decreasing in `top1`. -/
theorem calculate_confidence_formula_and_mono (r r2 : SearchRes)
    (rest : List SearchRes) (h : r.similarity_score ≤ r2.similarity_score) :
    calculate_confidence (r :: rest) =
      min ((4 / 10 : ℚ) * (((r :: rest).map (fun x => x.similarity_score)).sum /
          (((r :: rest).length : ℚ))) +
        (6 / 10 : ℚ) * r.similarity_score) 1 ∧
    calculate_confidence (r :: rest) ≤ calculate_confidence (r2 :: rest) := by
  constructor
  · simp only [calculate_confidence]
    congr 1
    ring
  · simp only [calculate_confidence, List.map_cons, List.sum_cons, List.length_cons]
    have hn : (0 : ℚ) < ((rest.length + 1 : Nat) : ℚ) := by positivity
    have h1 : (r.similarity_score + (rest.map (fun x => x.similarity_score)).sum) /
          ((rest.length + 1 : Nat) : ℚ) ≤
        (r2.similarity_score + (rest.map (fun x => x.similarity_score)).sum) /
          ((rest.length + 1 : Nat) : ℚ) :=
      (div_le_div_iff_of_pos_right hn).mpr (by linarith)
    refine min_le_min ?_ le_rfl
    nlinarith [h1, h]

/-- C5 witness: the formula and monotonicity at concrete similarities
`1/2 ≤ 3/4` with no further chunks. -/
theorem calculate_confidence_witness :
    calculate_confidence
        [{ document_id := ("d").data, filename := ("f").data,
           chunk_id := ("d_0").data, content := ("c").data,
           similarity_score := 1 / 2 }] =
      min ((4 / 10 : ℚ) *
          ((([{ document_id := ("d").data, filename := ("f").data,
                chunk_id := ("d_0").data, content := ("c").data,
                similarity_score := 1 / 2 }] : List SearchRes).map
              (fun x => x.similarity_score)).sum /
            ((([{ document_id := ("d").data, filename := ("f").data,
                  chunk_id := ("d_0").data, content := ("c").data,
                  similarity_score := 1 / 2 }] : List SearchRes).length : ℚ))) +
        (6 / 10 : ℚ) *
          ({ document_id := ("d").data, filename := ("f").data,
             chunk_id := ("d_0").data, content := ("c").data,
             similarity_score := 1 / 2 } : SearchRes).similarity_score) 1 ∧
    calculate_confidence
        [{ document_id := ("d").data, filename := ("f").data,
           chunk_id := ("d_0").data, content := ("c").data,
           similarity_score := 1 / 2 }] ≤
      calculate_confidence
        [{ document_id := ("d").data, filename := ("f").data,
           chunk_id := ("d_0").data, content := ("c").data,
           similarity_score := 3 / 4 }] :=
  calculate_confidence_formula_and_mono
    { document_id := ("d").data, filename := ("f").data,
      chunk_id := ("d_0").data, content := ("c").data,
      similarity_score := 1 / 2 }
    { document_id := ("d").data, filename := ("f").data,
      chunk_id := ("d_0").data, content := ("c").data,
      similarity_score := 3 / 4 }
    [] (by norm_num)

/-- C6.  Assuming the store returns at most `max_results` rows with
non-negative distances in ascending order, the retriever output has
length at most `max_results`, every similarity lies in
`[similarity_threshold, 1]`, and the output is sorted descending by
similarity. -/
theorem search_postprocess_guarantees (hits : List QueryHit) (threshold : ℚ)
    (max_results : Nat) (hlen : hits.length ≤ max_results)
    (hsorted : hits.Pairwise (fun a b => a.distance ≤ b.distance))
    (hnonneg : ∀ q ∈ hits, 0 ≤ q.distance) :
    (search_postprocess hits threshold).length ≤ max_results ∧
    (∀ r ∈ search_postprocess hits threshold,
      threshold ≤ r.similarity_score ∧ r.similarity_score ≤ 1) ∧
    (search_postprocess hits threshold).Pairwise
      (fun a b => b.similarity_score ≤ a.similarity_score) := by
  refine ⟨?_, ?_, ?_⟩
  · have hfl : (search_postprocess hits threshold).length ≤ hits.length := by
      simp only [search_postprocess, List.length_map]
      exact List.length_filter_le _ _
    omega
  · intro r hr
    simp only [search_postprocess, List.mem_map, List.mem_filter] at hr
    obtain ⟨q, ⟨hqmem, hqth⟩, rfl⟩ := hr
    refine ⟨by simpa using hqth, ?_⟩
    have h0 := hnonneg q hqmem
    show (1 : ℚ) - q.distance ≤ 1
    linarith
  · refine List.Pairwise.map _ ?_ (hsorted.filter _)
    intro a b hab
    show (1 : ℚ) - b.distance ≤ 1 - a.distance
    linarith

/-- C6 witness: two store rows with ascending non-negative distances
and threshold 0.7. -/
theorem search_postprocess_witness :
    (search_postprocess
        [{ hit_id := ("a_0").data, document := ("da").data,
           md_document_id := ("a").data, md_filename := ("fa").data,
           distance := 1 / 10 },
         { hit_id := ("b_0").data, document := ("db").data,
           md_document_id := ("b").data, md_filename := ("fb").data,
           distance := 2 / 5 }] (7 / 10)).length ≤ 5 ∧
    (∀ r ∈ search_postprocess
        [{ hit_id := ("a_0").data, document := ("da").data,
           md_document_id := ("a").data, md_filename := ("fa").data,
           distance := 1 / 10 },
         { hit_id := ("b_0").data, document := ("db").data,
           md_document_id := ("b").data, md_filename := ("fb").data,
           distance := 2 / 5 }] (7 / 10),
      (7 / 10 : ℚ) ≤ r.similarity_score ∧ r.similarity_score ≤ 1) ∧
    (search_postprocess
        [{ hit_id := ("a_0").data, document := ("da").data,
           md_document_id := ("a").data, md_filename := ("fa").data,
           distance := 1 / 10 },
         { hit_id := ("b_0").data, document := ("db").data,
           md_document_id := ("b").data, md_filename := ("fb").data,
           distance := 2 / 5 }] (7 / 10)).Pairwise
      (fun a b => b.similarity_score ≤ a.similarity_score) :=
  search_postprocess_guarantees _ (7 / 10) 5 (by decide)
    (by norm_num [List.pairwise_cons])
    (by
      intro q hq
      simp only [List.mem_cons, List.not_mem_nil, or_false] at hq
      rcases hq with rfl | rfl <;> norm_num)

/-- C8.  The claim describes the intended aggregation, but the code
never reaches it: every loop iteration of `check_completeness` calls
`vector_store.search` with the unsupported `document_ids` keyword
(qa_service.py:129-133), so for every store behavior and every
non-empty topic list the call raises `TypeError` before any coverage
score or mean is computed — while the empty topic list skips the loop
and returns `overall_completeness = 0` with no results.  The
repository's own `test_completeness_check` posts a two-topic list and
asserts the aggregated response, which the code cannot produce. -/
theorem check_completeness_raises_typeError
    (retrieve : List Char → List SearchRes) (topics : List (List Char))
    (h : topics ≠ []) :
    check_completeness retrieve topics = .error .typeError ∧
    check_completeness retrieve [] =
      .ok { overall_completeness := 0
            results := []
            recommendations := generate_recommendations [] } := by
  refine ⟨?_, rfl⟩
  cases topics with
  | nil => exact absurd rfl h
  | cons t ts =>
      have hbind : pyBindKwargs vectorStoreSearchParams
          checkCompletenessSearchKwargs = .error .typeError := by decide
      simp [check_completeness, completeness_results,
        completeness_topic_result, hbind]

/-- C8 witness: the repository test's own two-topic input raises, and
the empty topic list returns the zero-score response. -/
theorem check_completeness_raises_typeError_witness :
    check_completeness (fun _ => [])
        [("machine learning").data, ("deep learning").data] =
      .error .typeError ∧
    check_completeness (fun _ => []) [] =
      .ok { overall_completeness := 0
            results := []
            recommendations := generate_recommendations [] } :=
  check_completeness_raises_typeError (fun _ => [])
    [("machine learning").data, ("deep learning").data] (by decide)
